import Mathlib

/-!
Shallow embedding of the asynchronous I/O object facades of this repository:
`boost::asio::windows::object_handle` (src/include/boost/asio/windows/object_handle.hpp)
and `boost::asio::serial_port` (src/include/boost/asio/serial_port.hpp).

The two facade classes are translated directly from the source headers.  The
platform service backends they delegate to (`win_object_handle_service`,
`win_iocp_serial_port_service` / `reactive_serial_port_service`) and the
`io_object_impl` wrapper are code of this repository that is not present under
src/; those parts are modelled from the spec, and each such definition carries
a doc comment starting with `Modelled from the spec:`.

Machine-level conventions of the embedding:
- a native handle value is a `Nat`;
- `boost::system::error_code` becomes the inductive `error_code`, whose
  `success` constructor is the sentinel "no error" value;
- a completion record `(id, status, bytes)` stands for one invocation of a
  caller-supplied continuation; `posted` is the execution context's queue of
  deferred completions, `invoked` the log of continuations actually run;
- throwing overloads return an `Option error_code` raised-exception component
  alongside the object state after the call (C++ object state survives a
  throw), mirroring the `error_code ec; ...; throw_error(ec);` bodies of the
  source.
-/

namespace Asio

/-- Status values produced by the service binding, standing in for
`boost::system::error_code`; `success` is the falsy "no error" sentinel. -/
inductive error_code : Type
  | success
  | operation_aborted
  | already_open
  | not_found
  | bad_descriptor
deriving DecidableEq, Repr

/-- One continuation invocation record: operation id, completion status and
bytes transferred (0 for wait-style operations). -/
abbrev completion := Nat × error_code × Nat

/-- State of one facade instance together with its service binding: the bound
native handle (none when closed), the signalled flag of the wrapped waitable
object, the serial configuration value, the ids of submitted and not yet
completed asynchronous operations, the execution context's queue of posted
(deferred, not yet delivered) completions, the log of continuations already
invoked, and the id counter for the next submission. -/
structure io_state : Type where
  handle : Option Nat
  signalled : Bool
  opt : Nat
  pending : List Nat
  posted : List completion
  invoked : List completion
  next_id : Nat
deriving DecidableEq, Repr

/-- State of a freshly constructed, unopened facade: no handle, no pending
operations, no queued or delivered completions. -/
def init_state : io_state :=
  { handle := none
    signalled := false
    opt := 0
    pending := []
    posted := []
    invoked := []
    next_id := 0 }

/-- Binding-state query: a facade is open exactly when a native handle is
bound. -/
def handle_bound (st : io_state) : Bool :=
  st.handle.isSome

/-- The bound native handle value; unspecified (here: 0) while closed, matching
the spec's "undefined unless open". -/
def handle_value (st : io_state) : Nat :=
  st.handle.getD 0

namespace svc

/-- Modelled from the spec: the service binding's `assign` binds an existing
native handle, failing (state unchanged) when a handle is already bound and
transitioning closed to open otherwise. -/
def assign (h : Nat) (st : io_state) : error_code × io_state :=
  match st.handle with
  | some _ => (error_code.already_open, st)
  | none => (error_code.success, { st with handle := some h })

/-- Modelled from the spec: the serial service's `open` looks the device name
up in the platform device table; on failure (not found) the state is unchanged
and the facade remains closed, on success the device's handle is bound. -/
def open_device (devs : List (String × Nat)) (device : String)
    (st : io_state) : error_code × io_state :=
  match st.handle with
  | some _ => (error_code.already_open, st)
  | none =>
    match List.lookup device devs with
    | some h => (error_code.success, { st with handle := some h })
    | none => (error_code.not_found, st)

/-- Modelled from the spec: the service binding's `is_open` reflects whether a
native handle is currently bound; it is a pure query. -/
def is_open (st : io_state) : Bool :=
  handle_bound st

/-- Modelled from the spec: the service binding's `native_handle` accessor
returns the bound value read-only. -/
def native_handle (st : io_state) : Nat :=
  handle_value st

/-- Modelled from the spec: the service binding's `close` releases the native
handle and posts an `operation_aborted` completion for every pending
asynchronous operation, so none is silently dropped; closing an already closed
binding is a no-op success. -/
def close (st : io_state) : error_code × io_state :=
  (error_code.success,
    { st with
      handle := none
      pending := []
      posted := st.posted ++
        st.pending.map (fun i => (i, error_code.operation_aborted, 0)) })

/-- Modelled from the spec: the service binding's `cancel` aborts all in-flight
operations (posting `operation_aborted` completions) without releasing the
handle; on a closed binding it fails with a platform error. -/
def cancel (st : io_state) : error_code × io_state :=
  match st.handle with
  | none => (error_code.bad_descriptor, st)
  | some _ =>
    (error_code.success,
      { st with
        pending := []
        posted := st.posted ++
          st.pending.map (fun i => (i, error_code.operation_aborted, 0)) })

/-- Modelled from the spec: the service binding's blocking `wait` suspends the
caller until the wrapped object reaches the signalled state (platform error on
a closed binding). -/
def wait (st : io_state) : error_code × io_state :=
  match st.handle with
  | none => (error_code.bad_descriptor, st)
  | some _ => (error_code.success, { st with signalled := true })

/-- Modelled from the spec: the service binding's `async_wait` registers a wait
request and returns at once; even when the object is already signalled the
completion is only queued with the execution context's posting mechanism,
never invoked inline. -/
def async_wait (st : io_state) : io_state :=
  if st.signalled then
    { st with
      posted := st.posted ++ [(st.next_id, error_code.success, 0)]
      next_id := st.next_id + 1 }
  else
    { st with
      pending := st.pending ++ [st.next_id]
      next_id := st.next_id + 1 }

/-- Modelled from the spec: the serial service's `send_break` emits a break
signal on the open port; platform error on a closed binding. -/
def send_break (st : io_state) : error_code × io_state :=
  match st.handle with
  | none => (error_code.bad_descriptor, st)
  | some _ => (error_code.success, st)

/-- Modelled from the spec: the serial service's `set_option` stores a
configuration value on the open binding; platform error when closed. -/
def setOption (v : Nat) (st : io_state) : error_code × io_state :=
  match st.handle with
  | none => (error_code.bad_descriptor, st)
  | some _ => (error_code.success, { st with opt := v })

/-- Modelled from the spec: the serial service's `get_option` reads the current
configuration value from the open binding; platform error when closed. -/
def getOption (st : io_state) : error_code × Nat × io_state :=
  match st.handle with
  | none => (error_code.bad_descriptor, 0, st)
  | some _ => (error_code.success, st.opt, st)

/-- Number of bytes a some-style transfer moves when the environment offers
`k` bytes against a buffer sequence of total length `n`: zero for an empty
buffer, otherwise at least one and at most `n` (a partial transfer). -/
def transfer_amount (k n : Nat) : Nat :=
  if n = 0 then 0 else min n (max 1 k)

/-- Modelled from the spec: the serial service's blocking `read_some` transfers
at least one byte on success (zero only for an empty buffer), never more than
the buffer length, and reports 0 bytes on error; `k` is the amount of data the
environment makes available. -/
def read_some (k n : Nat) (st : io_state) : error_code × Nat × io_state :=
  match st.handle with
  | none => (error_code.bad_descriptor, 0, st)
  | some _ => (error_code.success, transfer_amount k n, st)

/-- Modelled from the spec: the serial service's blocking `write_some`, the
partial-transfer primitive symmetric to `read_some`. -/
def write_some (k n : Nat) (st : io_state) : error_code × Nat × io_state :=
  match st.handle with
  | none => (error_code.bad_descriptor, 0, st)
  | some _ => (error_code.success, transfer_amount k n, st)

/-- Modelled from the spec: the serial service's `async_read_some` registers a
read request and returns at once; when the operation can already complete at
submission time (data available, or an empty buffer) the completion is still
only queued for deferred posting, never invoked inline. -/
def async_read_some (k n : Nat) (st : io_state) : io_state :=
  if 0 < k ∨ n = 0 then
    { st with
      posted := st.posted ++ [(st.next_id, error_code.success, transfer_amount k n)]
      next_id := st.next_id + 1 }
  else
    { st with
      pending := st.pending ++ [st.next_id]
      next_id := st.next_id + 1 }

/-- Modelled from the spec: the serial service's `async_write_some`, symmetric
to `async_read_some`. -/
def async_write_some (k n : Nat) (st : io_state) : io_state :=
  if 0 < k ∨ n = 0 then
    { st with
      posted := st.posted ++ [(st.next_id, error_code.success, transfer_amount k n)]
      next_id := st.next_id + 1 }
  else
    { st with
      pending := st.pending ++ [st.next_id]
      next_id := st.next_id + 1 }

/-- Modelled from the spec: the execution context's posting mechanism delivers
every queued completion to its continuation; each queued record is invoked
exactly once and the queue is drained. -/
def run_posted (st : io_state) : io_state :=
  { st with
    posted := []
    invoked := st.invoked ++ st.posted }

/-- Modelled from the spec: `io_object_impl` move transfer: the destination
takes over the whole binding and the source is left equivalent to a freshly
constructed, unopened binding; result is (new source state, new destination
state). -/
def move_binding (st : io_state) : io_state × io_state :=
  (init_state, st)

/-- Modelled from the spec: teardown of `io_object_impl` applies close
semantics to a still-open binding and lets the execution context deliver every
outstanding completion (with an aborted status) before the binding is gone. -/
def destroy (st : io_state) : io_state :=
  run_posted (close st).2

end svc

/-- Translation of `boost::asio::detail::throw_error`: raises exactly when the
status is not the success sentinel; `none` means no exception. -/
def throw_error (ec : error_code) : Option error_code :=
  if ec = error_code.success then none else some ec

namespace object_handle

/-- Constructor `object_handle(io_context&)`: creates the facade without
opening it; it cannot fail. -/
def ctor_default : io_state :=
  init_state

/-- Constructor `object_handle(io_context&, native_handle_type)`: assigns the
existing native handle and raises on failure via `throw_error`. -/
def ctor_native (h : Nat) : Option error_code × io_state :=
  let r := svc.assign h init_state
  (throw_error r.1, r.2)

/-- Move construction `object_handle(object_handle&&)`: moves the binding out
of the source; result is (new source state, constructed object state). -/
def move_ctor (other : io_state) : io_state × io_state :=
  svc.move_binding other

/-- Move assignment `operator=(object_handle&&)`: the target's previous binding
is replaced by the moved one; result is (new source state, new target state). -/
def move_assign (_target other : io_state) : io_state × io_state :=
  svc.move_binding other

/-- Member `lowest_layer()` (both overloads): returns `*this`, the facade is
its own lowest layer. -/
def lowest_layer (st : io_state) : io_state :=
  st

/-- Member `is_open()`: delegates to the service binding. -/
def is_open (st : io_state) : Bool :=
  svc.is_open st

/-- Member `native_handle()`: delegates to the service binding. -/
def native_handle (st : io_state) : Nat :=
  svc.native_handle st

/-- Error-code overload of `assign`. -/
def assign_ec (h : Nat) (st : io_state) : error_code × io_state :=
  svc.assign h st

/-- Throwing overload of `assign`: same service call, then `throw_error`. -/
def assign_throwing (h : Nat) (st : io_state) : Option error_code × io_state :=
  let r := svc.assign h st
  (throw_error r.1, r.2)

/-- Error-code overload of `close`. -/
def close_ec (st : io_state) : error_code × io_state :=
  svc.close st

/-- Throwing overload of `close`: same service call, then `throw_error`. -/
def close_throwing (st : io_state) : Option error_code × io_state :=
  let r := svc.close st
  (throw_error r.1, r.2)

/-- Error-code overload of `cancel`. -/
def cancel_ec (st : io_state) : error_code × io_state :=
  svc.cancel st

/-- Throwing overload of `cancel`: same service call, then `throw_error`. -/
def cancel_throwing (st : io_state) : Option error_code × io_state :=
  let r := svc.cancel st
  (throw_error r.1, r.2)

/-- Error-code overload of blocking `wait`. -/
def wait_ec (st : io_state) : error_code × io_state :=
  svc.wait st

/-- Throwing overload of blocking `wait`: same service call, then
`throw_error`. -/
def wait_throwing (st : io_state) : Option error_code × io_state :=
  let r := svc.wait st
  (throw_error r.1, r.2)

/-- Member `async_wait(handler)`: forwards the wait request to the service
binding and returns immediately; the handler is never run inside this call. -/
def async_wait (st : io_state) : io_state :=
  svc.async_wait st

end object_handle

namespace serial_port

/-- Constructor `serial_port(io_context&)`: creates the facade without opening
it; it cannot fail. -/
def ctor_default : io_state :=
  init_state

/-- Constructors `serial_port(io_context&, const char*/const std::string&)`:
open the named device on a fresh facade and raise on failure via
`throw_error`. -/
def ctor_device (devs : List (String × Nat)) (device : String) :
    Option error_code × io_state :=
  let r := svc.open_device devs device init_state
  (throw_error r.1, r.2)

/-- Constructor `serial_port(io_context&, native_handle_type)`: assigns the
existing native handle and raises on failure via `throw_error`. -/
def ctor_native (h : Nat) : Option error_code × io_state :=
  let r := svc.assign h init_state
  (throw_error r.1, r.2)

/-- Move construction `serial_port(serial_port&&)`. -/
def move_ctor (other : io_state) : io_state × io_state :=
  svc.move_binding other

/-- Move assignment `operator=(serial_port&&)`. -/
def move_assign (_target other : io_state) : io_state × io_state :=
  svc.move_binding other

/-- Destructor `~serial_port()`: the facade body is empty and teardown of the
contained `io_object_impl` member releases the binding. -/
def dtor (st : io_state) : io_state :=
  svc.destroy st

/-- Member `lowest_layer()` (both overloads): returns `*this`. -/
def lowest_layer (st : io_state) : io_state :=
  st

/-- Member `is_open()`: delegates to the service binding. -/
def is_open (st : io_state) : Bool :=
  svc.is_open st

/-- Member `native_handle()`: delegates to the service binding. -/
def native_handle (st : io_state) : Nat :=
  svc.native_handle st

/-- Error-code overload of `open`. -/
def open_ec (devs : List (String × Nat)) (device : String)
    (st : io_state) : error_code × io_state :=
  svc.open_device devs device st

/-- Throwing overload of `open`: same service call, then `throw_error`. -/
def open_throwing (devs : List (String × Nat)) (device : String)
    (st : io_state) : Option error_code × io_state :=
  let r := svc.open_device devs device st
  (throw_error r.1, r.2)

/-- Error-code overload of `assign`. -/
def assign_ec (h : Nat) (st : io_state) : error_code × io_state :=
  svc.assign h st

/-- Throwing overload of `assign`: same service call, then `throw_error`. -/
def assign_throwing (h : Nat) (st : io_state) : Option error_code × io_state :=
  let r := svc.assign h st
  (throw_error r.1, r.2)

/-- Error-code overload of `close`. -/
def close_ec (st : io_state) : error_code × io_state :=
  svc.close st

/-- Throwing overload of `close`: same service call, then `throw_error`. -/
def close_throwing (st : io_state) : Option error_code × io_state :=
  let r := svc.close st
  (throw_error r.1, r.2)

/-- Error-code overload of `cancel`. -/
def cancel_ec (st : io_state) : error_code × io_state :=
  svc.cancel st

/-- Throwing overload of `cancel`: same service call, then `throw_error`. -/
def cancel_throwing (st : io_state) : Option error_code × io_state :=
  let r := svc.cancel st
  (throw_error r.1, r.2)

/-- Error-code overload of `send_break`. -/
def send_break_ec (st : io_state) : error_code × io_state :=
  svc.send_break st

/-- Throwing overload of `send_break`: same service call, then `throw_error`. -/
def send_break_throwing (st : io_state) : Option error_code × io_state :=
  let r := svc.send_break st
  (throw_error r.1, r.2)

/-- Error-code overload of `set_option` (`setOption`, renamed because
`set_option` is reserved in Lean). -/
def setOption_ec (v : Nat) (st : io_state) : error_code × io_state :=
  svc.setOption v st

/-- Throwing overload of `set_option`: same service call, then `throw_error`. -/
def setOption_throwing (v : Nat) (st : io_state) : Option error_code × io_state :=
  let r := svc.setOption v st
  (throw_error r.1, r.2)

/-- Error-code overload of `get_option` (`getOption`, named to match
`setOption`): returns (status, option value read, state). -/
def getOption_ec (st : io_state) : error_code × Nat × io_state :=
  svc.getOption st

/-- Throwing overload of `get_option`: same service call, then `throw_error`. -/
def getOption_throwing (st : io_state) : Option error_code × Nat × io_state :=
  let r := svc.getOption st
  (throw_error r.1, r.2)

/-- Error-code overload of `read_some`: returns (status, bytes read, state). -/
def read_some_ec (k n : Nat) (st : io_state) : error_code × Nat × io_state :=
  svc.read_some k n st

/-- Throwing overload of `read_some`: same service call, then `throw_error`. -/
def read_some_throwing (k n : Nat) (st : io_state) :
    Option error_code × Nat × io_state :=
  let r := svc.read_some k n st
  (throw_error r.1, r.2)

/-- Error-code overload of `write_some`: returns (status, bytes written,
state). -/
def write_some_ec (k n : Nat) (st : io_state) : error_code × Nat × io_state :=
  svc.write_some k n st

/-- Throwing overload of `write_some`: same service call, then `throw_error`. -/
def write_some_throwing (k n : Nat) (st : io_state) :
    Option error_code × Nat × io_state :=
  let r := svc.write_some k n st
  (throw_error r.1, r.2)

/-- Member `async_read_some(buffers, handler)`: forwards to the service and
returns immediately; the handler is never run inside this call. -/
def async_read_some (k n : Nat) (st : io_state) : io_state :=
  svc.async_read_some k n st

/-- Member `async_write_some(buffers, handler)`: forwards to the service and
returns immediately; the handler is never run inside this call. -/
def async_write_some (k n : Nat) (st : io_state) : io_state :=
  svc.async_write_some k n st

end serial_port

/-! ## Helper definitions and lemmas shared by the verification theorems -/

/-- Number of completion records belonging to operation id `i` in a list of
completions. -/
def completions_for (i : Nat) (l : List completion) : Nat :=
  (l.filter (fun c => c.1 == i)).length

theorem completions_for_append (i : Nat) (l r : List completion) :
    completions_for i (l ++ r) = completions_for i l + completions_for i r := by
  simp [completions_for, List.filter_append]

theorem completions_for_abort_map (i : Nat) (l : List Nat) :
    completions_for i
        (l.map (fun j => (j, error_code.operation_aborted, 0)))
      = l.count i := by
  induction l with
  | nil => rfl
  | cons a t ih =>
    by_cases h : a = i
    · simp [completions_for, List.count_cons, h] at ih ⊢
      omega
    · simp [completions_for, List.count_cons, h] at ih ⊢
      omega

theorem count_one_mem (i : Nat) (l : List Nat) (h : l.count i = 1) : i ∈ l := by
  have hpos : 0 < l.count i := by omega
  exact List.count_pos_iff.mp hpos

theorem abort_mem_map (i : Nat) (l : List Nat) (h : i ∈ l) :
    (i, error_code.operation_aborted, 0)
      ∈ l.map (fun j => (j, error_code.operation_aborted, 0)) :=
  List.mem_map_of_mem _ h

/-! ## Claim theorems -/

/-- Claim C1: a handler passed to `async_wait` on the handle facade or to
`async_read_some`/`async_write_some` on the port facade is never invoked
synchronously within the submitting call: the log of invoked continuations is
unchanged by submission, even when the underlying operation is already
complete at submission time, and the submitted operation is instead registered
exactly once with the pending set or the execution context's deferred posting
queue. -/
theorem c1_async_submission_never_invokes_handler_inline (k n : Nat)
    (st : io_state) :
    (object_handle.async_wait st).invoked = st.invoked ∧
    (serial_port.async_read_some k n st).invoked = st.invoked ∧
    (serial_port.async_write_some k n st).invoked = st.invoked ∧
    (object_handle.async_wait st).pending.length
        + (object_handle.async_wait st).posted.length
      = st.pending.length + st.posted.length + 1 ∧
    (serial_port.async_read_some k n st).pending.length
        + (serial_port.async_read_some k n st).posted.length
      = st.pending.length + st.posted.length + 1 ∧
    (serial_port.async_write_some k n st).pending.length
        + (serial_port.async_write_some k n st).posted.length
      = st.pending.length + st.posted.length + 1 := by
  unfold object_handle.async_wait serial_port.async_read_some
    serial_port.async_write_some svc.async_wait svc.async_read_some
    svc.async_write_some
  refine ⟨?_, ?_, ?_, ?_, ?_, ?_⟩ <;> split <;> simp <;> omega

/-- Claim C3: moving a facade A (open or closed) into B by move construction
or move assignment leaves B open exactly when A was open before the move, with
A's previous native handle value, while A becomes equal to a freshly
default-constructed, unopened facade with no pending operations. -/
theorem c3_move_transfers_binding_and_resets_source (a b : io_state) :
    serial_port.is_open (serial_port.move_ctor a).2 = serial_port.is_open a ∧
    serial_port.is_open (serial_port.move_ctor a).1 = false ∧
    (serial_port.move_ctor a).1 = serial_port.ctor_default ∧
    (serial_port.move_ctor a).1.pending = [] ∧
    serial_port.native_handle (serial_port.move_ctor a).2
      = serial_port.native_handle a ∧
    serial_port.move_assign b a = serial_port.move_ctor a ∧
    object_handle.is_open (object_handle.move_ctor a).2
      = object_handle.is_open a ∧
    object_handle.is_open (object_handle.move_ctor a).1 = false ∧
    (object_handle.move_ctor a).1 = object_handle.ctor_default ∧
    (object_handle.move_ctor a).1.pending = [] ∧
    object_handle.native_handle (object_handle.move_ctor a).2
      = object_handle.native_handle a ∧
    object_handle.move_assign b a = object_handle.move_ctor a := by
  refine ⟨rfl, rfl, rfl, rfl, rfl, rfl, rfl, rfl, rfl, rfl, rfl, rfl⟩

/-- Claim C4: for every operation offered in a throwing and an error-code
form, both forms produce the status of the one shared service implementation;
the throwing form raises exactly when that status is not the success sentinel
and otherwise raises nothing, and in all cases it leaves the facade in the
same state (and yields the same read/write result) as the error-code form. -/
theorem c4_dual_entry_points_agree (h v k n : Nat)
    (devs : List (String × Nat)) (device : String) (st : io_state) :
    (object_handle.assign_throwing h st).2 = (object_handle.assign_ec h st).2 ∧
    (object_handle.assign_throwing h st).1
      = (if (object_handle.assign_ec h st).1 = error_code.success then none
         else some (object_handle.assign_ec h st).1) ∧
    (object_handle.close_throwing st).2 = (object_handle.close_ec st).2 ∧
    (object_handle.close_throwing st).1
      = (if (object_handle.close_ec st).1 = error_code.success then none
         else some (object_handle.close_ec st).1) ∧
    (object_handle.cancel_throwing st).2 = (object_handle.cancel_ec st).2 ∧
    (object_handle.cancel_throwing st).1
      = (if (object_handle.cancel_ec st).1 = error_code.success then none
         else some (object_handle.cancel_ec st).1) ∧
    (object_handle.wait_throwing st).2 = (object_handle.wait_ec st).2 ∧
    (object_handle.wait_throwing st).1
      = (if (object_handle.wait_ec st).1 = error_code.success then none
         else some (object_handle.wait_ec st).1) ∧
    (serial_port.open_throwing devs device st).2
      = (serial_port.open_ec devs device st).2 ∧
    (serial_port.open_throwing devs device st).1
      = (if (serial_port.open_ec devs device st).1 = error_code.success
         then none else some (serial_port.open_ec devs device st).1) ∧
    (serial_port.assign_throwing h st).2 = (serial_port.assign_ec h st).2 ∧
    (serial_port.assign_throwing h st).1
      = (if (serial_port.assign_ec h st).1 = error_code.success then none
         else some (serial_port.assign_ec h st).1) ∧
    (serial_port.close_throwing st).2 = (serial_port.close_ec st).2 ∧
    (serial_port.close_throwing st).1
      = (if (serial_port.close_ec st).1 = error_code.success then none
         else some (serial_port.close_ec st).1) ∧
    (serial_port.cancel_throwing st).2 = (serial_port.cancel_ec st).2 ∧
    (serial_port.cancel_throwing st).1
      = (if (serial_port.cancel_ec st).1 = error_code.success then none
         else some (serial_port.cancel_ec st).1) ∧
    (serial_port.send_break_throwing st).2 = (serial_port.send_break_ec st).2 ∧
    (serial_port.send_break_throwing st).1
      = (if (serial_port.send_break_ec st).1 = error_code.success then none
         else some (serial_port.send_break_ec st).1) ∧
    (serial_port.setOption_throwing v st).2 = (serial_port.setOption_ec v st).2 ∧
    (serial_port.setOption_throwing v st).1
      = (if (serial_port.setOption_ec v st).1 = error_code.success then none
         else some (serial_port.setOption_ec v st).1) ∧
    (serial_port.getOption_throwing st).2 = (serial_port.getOption_ec st).2 ∧
    (serial_port.getOption_throwing st).1
      = (if (serial_port.getOption_ec st).1 = error_code.success then none
         else some (serial_port.getOption_ec st).1) ∧
    (serial_port.read_some_throwing k n st).2
      = (serial_port.read_some_ec k n st).2 ∧
    (serial_port.read_some_throwing k n st).1
      = (if (serial_port.read_some_ec k n st).1 = error_code.success then none
         else some (serial_port.read_some_ec k n st).1) ∧
    (serial_port.write_some_throwing k n st).2
      = (serial_port.write_some_ec k n st).2 ∧
    (serial_port.write_some_throwing k n st).1
      = (if (serial_port.write_some_ec k n st).1 = error_code.success then none
         else some (serial_port.write_some_ec k n st).1) := by
  repeat' apply And.intro
  all_goals rfl

/-- Claim C10: `lowest_layer()` on either facade returns the facade instance
itself unchanged: the facade is always its own lowest layer. -/
theorem c10_lowest_layer_is_self (st : io_state) :
    object_handle.lowest_layer st = st ∧ serial_port.lowest_layer st = st :=
  ⟨rfl, rfl⟩

/-- Conclusion of claim C2 for a facade state `st` holding one pending
operation `i`: close succeeds on both facades, the facade reports closed, and
after the execution context delivers the posted queue the continuation of `i`
has run exactly once with `operation_aborted`, nothing for the binding is left
pending or queued, and a further close-and-deliver round invokes nothing
more. -/
def c2_prop (st : io_state) (i : Nat) : Prop :=
  (serial_port.close_ec st).1 = error_code.success ∧
  (object_handle.close_ec st).1 = error_code.success ∧
  serial_port.is_open (serial_port.close_ec st).2 = false ∧
  object_handle.is_open (object_handle.close_ec st).2 = false ∧
  completions_for i (svc.run_posted (serial_port.close_ec st).2).invoked = 1 ∧
  (i, error_code.operation_aborted, 0)
    ∈ (svc.run_posted (serial_port.close_ec st).2).invoked ∧
  (svc.run_posted (serial_port.close_ec st).2).pending = [] ∧
  (svc.run_posted (serial_port.close_ec st).2).posted = [] ∧
  (svc.run_posted
      (serial_port.close_ec (svc.run_posted (serial_port.close_ec st).2)).2).invoked
    = (svc.run_posted (serial_port.close_ec st).2).invoked

/-- Claim C2: after a successful `close()`, `is_open()` is false and the
continuation of every asynchronous operation previously submitted on the
instance is invoked exactly once — never zero times, never twice — with the
`operation_aborted` status, and no continuation for the binding fires after
the facade reports the handle as released. -/
theorem c2_close_aborts_every_pending_op_exactly_once (st : io_state) (i : Nat)
    (hp : st.pending.count i = 1)
    (hpost : completions_for i st.posted = 0)
    (hinv : completions_for i st.invoked = 0) :
    c2_prop st i := by
  have hmem : i ∈ st.pending := count_one_mem i st.pending hp
  refine ⟨rfl, rfl, rfl, rfl, ?_, ?_, rfl, rfl, ?_⟩
  · show completions_for i
      (st.invoked ++ (st.posted ++
        st.pending.map (fun j => (j, error_code.operation_aborted, 0)))) = 1
    rw [completions_for_append, completions_for_append,
      completions_for_abort_map, hpost, hinv, hp]
  · show (i, error_code.operation_aborted, 0)
      ∈ st.invoked ++ (st.posted ++
        st.pending.map (fun j => (j, error_code.operation_aborted, 0)))
    exact List.mem_append_right _
      (List.mem_append_right _ (abort_mem_map i st.pending hmem))
  · show (st.invoked ++ (st.posted ++
        st.pending.map (fun j => (j, error_code.operation_aborted, 0)))) ++
        ([] ++ List.map (fun j => (j, error_code.operation_aborted, 0)) [])
      = st.invoked ++ (st.posted ++
        st.pending.map (fun j => (j, error_code.operation_aborted, 0)))
    simp

/-- Witness for claim C2: a concrete open facade with the single pending
operation 3 satisfies the hypotheses and the conclusion of the theorem. -/
theorem c2_witness : c2_prop ⟨some 7, false, 0, [3], [], [], 4⟩ 3 :=
  c2_close_aborts_every_pending_op_exactly_once
    ⟨some 7, false, 0, [3], [], [], 4⟩ 3 (by decide) (by decide) (by decide)

theorem transfer_amount_le (k n : Nat) : svc.transfer_amount k n ≤ n := by
  unfold svc.transfer_amount
  split_ifs with h
  · omega
  · exact Nat.min_le_left _ _

theorem transfer_amount_pos (k n : Nat) (h : 0 < n) :
    1 ≤ svc.transfer_amount k n := by
  unfold svc.transfer_amount
  split_ifs with h0
  · omega
  · exact le_min (by omega) (le_max_left 1 k)

/-- Conclusion of claim C5 for environment offer `k`, buffer length `n` and
state `st`: blocking `read_some` and `write_some` return a count in `[0, n]`,
transfer at least one byte on success when `n > 0`, return 0 on an empty
buffer without error when the port is open, and the error-code form returns 0
whenever an error occurred. -/
def c5_prop (k n : Nat) (st : io_state) : Prop :=
  (serial_port.read_some_ec k n st).2.1 ≤ n ∧
  (serial_port.write_some_ec k n st).2.1 ≤ n ∧
  ((serial_port.read_some_ec k n st).1 = error_code.success → 0 < n →
    1 ≤ (serial_port.read_some_ec k n st).2.1) ∧
  ((serial_port.write_some_ec k n st).1 = error_code.success → 0 < n →
    1 ≤ (serial_port.write_some_ec k n st).2.1) ∧
  ((serial_port.read_some_ec k n st).1 ≠ error_code.success →
    (serial_port.read_some_ec k n st).2.1 = 0) ∧
  ((serial_port.write_some_ec k n st).1 ≠ error_code.success →
    (serial_port.write_some_ec k n st).2.1 = 0) ∧
  (handle_bound st = true → n = 0 →
    (serial_port.read_some_ec k n st).1 = error_code.success ∧
    (serial_port.read_some_ec k n st).2.1 = 0) ∧
  (handle_bound st = true → n = 0 →
    (serial_port.write_some_ec k n st).1 = error_code.success ∧
    (serial_port.write_some_ec k n st).2.1 = 0)

/-- Claim C5: `read_some`/`write_some` are partial-transfer primitives — on
success the count lies in `[0, N]` and is at least one when `N > 0`, an empty
buffer may return zero without error, the full requested length is not
guaranteed (witnessed by a successful strictly-partial transfer), and the
error-code form returns 0 whenever an error occurred. -/
theorem c5_partial_transfer_bounds (k n : Nat) (st : io_state) :
    c5_prop k n st ∧
    (serial_port.write_some_ec 0 2 ⟨some 1, false, 0, [], [], [], 0⟩).1
      = error_code.success ∧
    (serial_port.write_some_ec 0 2 ⟨some 1, false, 0, [], [], [], 0⟩).2.1 < 2 := by
  refine ⟨?_, by decide, by decide⟩
  obtain ⟨h, sig, o, pen, pos, inv, nid⟩ := st
  cases h with
  | none =>
    refine ⟨?_, ?_, ?_, ?_, ?_, ?_, ?_, ?_⟩ <;>
      simp [serial_port.read_some_ec, serial_port.write_some_ec,
        svc.read_some, svc.write_some, handle_bound]
  | some w =>
    exact ⟨transfer_amount_le k n, transfer_amount_le k n,
      fun _ hn => transfer_amount_pos k n hn,
      fun _ hn => transfer_amount_pos k n hn,
      fun hne => absurd rfl hne,
      fun hne => absurd rfl hne,
      fun _ hn => by subst hn; exact ⟨rfl, rfl⟩,
      fun _ hn => by subst hn; exact ⟨rfl, rfl⟩⟩

/-- Witness for claim C5: the bounds instantiated at a concrete open port,
offer 5 and buffer length 3. -/
theorem c5_witness :
    c5_prop 5 3 ⟨some 2, false, 0, [], [], [], 0⟩ ∧
    (serial_port.write_some_ec 0 2 ⟨some 1, false, 0, [], [], [], 0⟩).1
      = error_code.success ∧
    (serial_port.write_some_ec 0 2 ⟨some 1, false, 0, [], [], [], 0⟩).2.1 < 2 :=
  c5_partial_transfer_bounds 5 3 ⟨some 2, false, 0, [], [], [], 0⟩

/-- Conclusion of claim C6 for an open facade state `st`: `cancel` succeeds on
both facades, every in-flight operation is aborted into the posted queue, the
pending set is emptied, and the handle, the open state and the native handle
value are all unchanged. -/
def c6_prop (st : io_state) : Prop :=
  (serial_port.cancel_ec st).1 = error_code.success ∧
  (object_handle.cancel_ec st).1 = error_code.success ∧
  (serial_port.cancel_ec st).2.handle = st.handle ∧
  serial_port.is_open (serial_port.cancel_ec st).2 = serial_port.is_open st ∧
  serial_port.native_handle (serial_port.cancel_ec st).2
    = serial_port.native_handle st ∧
  object_handle.is_open (object_handle.cancel_ec st).2
    = object_handle.is_open st ∧
  object_handle.native_handle (object_handle.cancel_ec st).2
    = object_handle.native_handle st ∧
  (serial_port.cancel_ec st).2.pending = [] ∧
  (serial_port.cancel_ec st).2.posted
    = st.posted ++ st.pending.map (fun i => (i, error_code.operation_aborted, 0))

/-- Claim C6: on an open facade, `cancel()` completes all in-flight operations
with an aborted indication but releases nothing: `is_open()` and
`native_handle()` return the same values after `cancel()` as before. -/
theorem c6_cancel_preserves_open_state (st : io_state)
    (hopen : handle_bound st = true) : c6_prop st := by
  obtain ⟨w, hw⟩ := Option.isSome_iff_exists.mp hopen
  refine ⟨?_, ?_, ?_, ?_, ?_, ?_, ?_, ?_, ?_⟩ <;>
    simp [serial_port.cancel_ec, object_handle.cancel_ec, svc.cancel, hw,
      serial_port.is_open, object_handle.is_open, svc.is_open, handle_bound,
      serial_port.native_handle, object_handle.native_handle,
      svc.native_handle, handle_value]

/-- Witness for claim C6: a concrete open facade with two in-flight
operations. -/
theorem c6_witness : c6_prop ⟨some 5, false, 0, [1, 2], [], [], 3⟩ :=
  c6_cancel_preserves_open_state ⟨some 5, false, 0, [1, 2], [], [], 3⟩
    (by decide)

/-- Conclusion of claim C7 for a closed facade `st`, a device table `devs` and
a device name absent from it: `open` fails with `not_found` leaving the state
untouched and the facade closed, the throwing overload and the
construct-with-name constructor raise that failure, and plain default
construction is a total operation with no failure channel. -/
def c7_prop (devs : List (String × Nat)) (device : String)
    (st : io_state) : Prop :=
  (serial_port.open_ec devs device st).1 = error_code.not_found ∧
  (serial_port.open_ec devs device st).2 = st ∧
  serial_port.is_open (serial_port.open_ec devs device st).2 = false ∧
  (serial_port.open_throwing devs device st).1 = some error_code.not_found ∧
  (serial_port.open_throwing devs device st).2 = st ∧
  (serial_port.ctor_device devs device).1 = some error_code.not_found ∧
  serial_port.is_open (serial_port.ctor_device devs device).2 = false ∧
  serial_port.ctor_default = init_state

/-- Claim C7: when `open` (or construction with a device name) cannot open the
device, the failure is reported — the throwing form and the constructor
raise — and the facade remains closed; plain default construction never
fails. -/
theorem c7_failed_open_leaves_facade_closed (devs : List (String × Nat))
    (device : String) (st : io_state) (hclosed : st.handle = none)
    (hmiss : List.lookup device devs = none) : c7_prop devs device st := by
  refine ⟨?_, ?_, ?_, ?_, ?_, ?_, ?_, rfl⟩ <;>
    simp [serial_port.open_ec, serial_port.open_throwing,
      serial_port.ctor_device, svc.open_device, throw_error, hclosed, hmiss,
      serial_port.is_open, svc.is_open, handle_bound, init_state]

/-- Witness for claim C7: a device table holding only "ttyS0" and an attempt
to open the absent device "ttyS1" on a fresh facade. -/
theorem c7_witness : c7_prop [("ttyS0", 5)] "ttyS1" init_state :=
  c7_failed_open_leaves_facade_closed [("ttyS0", 5)] "ttyS1" init_state rfl
    (by decide)

/-- Conclusion of claim C8 for a closed facade `st`, a device table containing
`device`, and a native handle `h`: `is_open()` is false on a freshly
default-constructed facade of either kind, true immediately after a successful
`open`, `assign` or construction-with-target, and is a pure function of the
binding state. -/
def c8_prop (devs : List (String × Nat)) (device : String) (h : Nat)
    (st : io_state) : Prop :=
  serial_port.is_open serial_port.ctor_default = false ∧
  object_handle.is_open object_handle.ctor_default = false ∧
  (serial_port.open_ec devs device st).1 = error_code.success ∧
  serial_port.is_open (serial_port.open_ec devs device st).2 = true ∧
  (serial_port.assign_ec h st).1 = error_code.success ∧
  serial_port.is_open (serial_port.assign_ec h st).2 = true ∧
  (object_handle.assign_ec h st).1 = error_code.success ∧
  object_handle.is_open (object_handle.assign_ec h st).2 = true ∧
  (serial_port.ctor_device devs device).1 = none ∧
  serial_port.is_open (serial_port.ctor_device devs device).2 = true ∧
  (serial_port.ctor_native h).1 = none ∧
  serial_port.is_open (serial_port.ctor_native h).2 = true ∧
  (object_handle.ctor_native h).1 = none ∧
  object_handle.is_open (object_handle.ctor_native h).2 = true ∧
  serial_port.is_open st = handle_bound st ∧
  object_handle.is_open st = handle_bound st

/-- Claim C8: `is_open()` is false immediately after default construction and
true immediately after a successful `open`, `assign` or
construction-with-target, on both facades; it is a pure query of the binding
state with no side effect. -/
theorem c8_is_open_tracks_binding (devs : List (String × Nat))
    (device : String) (hv h : Nat) (st : io_state)
    (hclosed : st.handle = none)
    (hhit : List.lookup device devs = some hv) : c8_prop devs device h st := by
  refine ⟨rfl, rfl, ?_, ?_, ?_, ?_, ?_, ?_, ?_, ?_, rfl, rfl, rfl, rfl, rfl,
    rfl⟩ <;>
    simp [serial_port.open_ec, serial_port.assign_ec, object_handle.assign_ec,
      serial_port.ctor_device, svc.open_device, svc.assign, throw_error,
      hclosed, hhit, serial_port.is_open, object_handle.is_open, svc.is_open,
      handle_bound, init_state]

/-- Witness for claim C8: a device table holding "ttyS0" with handle 5 and a
fresh closed facade assigned native handle 9. -/
theorem c8_witness : c8_prop [("ttyS0", 5)] "ttyS0" 9 init_state :=
  c8_is_open_tracks_binding [("ttyS0", 5)] "ttyS0" 5 9 init_state rfl
    (by decide)

/-- Conclusion of claim C9 for a facade `st` with one outstanding operation
`i`: after teardown the resource is released, nothing is pending or queued,
and the continuation of `i` has been invoked exactly once with
`operation_aborted` before the binding is gone. -/
def c9_prop (st : io_state) (i : Nat) : Prop :=
  (serial_port.dtor st).handle = none ∧
  serial_port.is_open (serial_port.dtor st) = false ∧
  (serial_port.dtor st).pending = [] ∧
  (serial_port.dtor st).posted = [] ∧
  completions_for i (serial_port.dtor st).invoked = 1 ∧
  (i, error_code.operation_aborted, 0) ∈ (serial_port.dtor st).invoked

/-- Claim C9: destroying a facade that is still open applies close semantics
during teardown: the underlying resource is released and every outstanding
asynchronous operation completes with an aborted indication before the binding
is destroyed. -/
theorem c9_destruction_applies_close_semantics (st : io_state) (i : Nat)
    (_hopen : handle_bound st = true)
    (hp : st.pending.count i = 1)
    (hpost : completions_for i st.posted = 0)
    (hinv : completions_for i st.invoked = 0) : c9_prop st i := by
  have hmem : i ∈ st.pending := count_one_mem i st.pending hp
  refine ⟨rfl, rfl, rfl, rfl, ?_, ?_⟩
  · show completions_for i
      (st.invoked ++ (st.posted ++
        st.pending.map (fun j => (j, error_code.operation_aborted, 0)))) = 1
    rw [completions_for_append, completions_for_append,
      completions_for_abort_map, hpost, hinv, hp]
  · show (i, error_code.operation_aborted, 0)
      ∈ st.invoked ++ (st.posted ++
        st.pending.map (fun j => (j, error_code.operation_aborted, 0)))
    exact List.mem_append_right _
      (List.mem_append_right _ (abort_mem_map i st.pending hmem))

/-- Witness for claim C9: a concrete open facade with the single outstanding
operation 2 torn down. -/
theorem c9_witness : c9_prop ⟨some 9, false, 0, [2], [], [], 6⟩ 2 :=
  c9_destruction_applies_close_semantics ⟨some 9, false, 0, [2], [], [], 6⟩ 2
    (by decide) (by decide) (by decide) (by decide)

end Asio
